import Mathlib

/-!
Shallow embedding of the EC2 rightsizing dashboard Lambda
(source file: src/ec2-rightsizing.py) together with proofs about its
savings aggregators, source fetchers, synthetic generator and
fallback orchestrator.

Conventions of the embedding:
* Python dict/list/str/float values are modelled by the inductive type Jv
  (a JSON-like value); Python floats are modelled as rationals.
* Python exceptions are modelled by PyErr, distinguishing
  botocore ClientError from every other exception class, because the
  source catches ClientError specifically in two places.
* Fallible Python code is modelled in the Except PyErr monad.
* The global random number generator of the Python random module is
  modelled as an explicit deterministic state machine RState threaded
  through the code; the model provides the same interface guarantees
  (seeding determinism, randint range, choice membership,
  random() in [0,1)) as CPython's Mersenne Twister.
-/

/-- Model of a Python value as it appears in the data handled by the
Lambda: dictionaries, lists, strings, numbers (floats modelled as
rationals), booleans and None. -/
inductive Jv : Type where
  | null : Jv
  | b : Bool → Jv
  | num : Rat → Jv
  | str : String → Jv
  | arr : List Jv → Jv
  | obj : List (String × Jv) → Jv

/-- Model of a Python exception, keeping just the distinction the source
code branches on: botocore.exceptions.ClientError versus every other
exception class (RuntimeError, AttributeError, TypeError, network errors
outside ClientError, ...). -/
inductive PyErr : Type where
  | client : PyErr
  | other : PyErr
deriving DecidableEq, Repr

/-- Python truthiness of a value: None, False, 0, empty string, empty
list and empty dict are falsy, everything else is truthy. -/
def truthy : Jv → Bool
  | .null => false
  | .b v => v
  | .num q => q != 0
  | .str s => s != ""
  | .arr xs => !xs.isEmpty
  | .obj kvs => !kvs.isEmpty

/-- Model of the Python expression d.get(k): returns the stored value
(None missing distinguished from stored None via Option), and raises
AttributeError when the receiver is not a dict. -/
def pyGet (j : Jv) (k : String) : Except PyErr (Option Jv) :=
  match j with
  | .obj kvs => .ok (List.lookup k kvs)
  | _ => .error .other

/-- Model of d.get(k) used as a plain value: a missing key yields None. -/
def pyGetN (j : Jv) (k : String) : Except PyErr Jv :=
  (pyGet j k).map (fun o => o.getD .null)

/-- Model of d.get(k, dflt): the default is used only when the key is
absent; a stored None is returned as None. -/
def pyGetD (j : Jv) (k : String) (dflt : Jv) : Except PyErr Jv :=
  (pyGet j k).map (fun o => o.getD dflt)

/-- Model of the Python expression a or b: the left operand when truthy,
otherwise the right operand. -/
def pyOr (a b : Jv) : Jv := if truthy a then a else b

/-- Numeric value of a list of decimal digit characters. -/
def digitsVal (cs : List Char) : Nat :=
  cs.foldl (fun a c => a * 10 + (c.toNat - 48)) 0

/-- Parse of a decimal numeric string, modelling float(s) on strings:
optional sign, digits with an optional fractional part ("3", "3.5",
"3.", ".5" are accepted); anything else is unparseable.  (The exotic
float literals inf/nan/exponents are modelled as unparseable; no data
in this program produces them.) -/
def parsePyFloat (s : String) : Option Rat :=
  let withSign : Rat → Rat :=
    match s.data with
    | c :: _ => if c = '-' then (fun q => -q) else (fun q => q)
    | [] => fun q => q
  let cs :=
    match s.data with
    | c :: rest => if c = '-' || c = '+' then rest else s.data
    | [] => []
  let ip := cs.takeWhile Char.isDigit
  let rest1 := cs.dropWhile Char.isDigit
  match rest1 with
  | [] =>
    if ip.isEmpty then none
    else some (withSign (digitsVal ip))
  | c :: rest2 =>
    if c = '.' then
      let fp := rest2.takeWhile Char.isDigit
      let rest3 := rest2.dropWhile Char.isDigit
      if rest3.isEmpty && !(ip.isEmpty && fp.isEmpty) then
        some (withSign ((digitsVal ip : Rat) +
          (digitsVal fp : Rat) / ((10 : Rat) ^ fp.length)))
      else none
    else none

/-- Model of the Python conversion float(v) on a Jv value: numbers pass
through, booleans convert to 0/1, numeric strings parse, everything
else (None, lists, dicts, non-numeric strings) raises, which the
aggregators catch.  none models the raising cases. -/
def pyFloat : Jv → Option Rat
  | .num q => some q
  | .b v => some (if v then 1 else 0)
  | .str s => parsePyFloat s
  | _ => none

/-- Threshold below which a real data source is abandoned
(MIN_SAVINGS = 0.01 in the source). -/
def MIN_SAVINGS : Rat := 1 / 100

/-- Fixed Cost Explorer configuration echoed into the report
(RECOMMENDATION_TARGET in the source). -/
def RECOMMENDATION_TARGET : String := "CROSS_INSTANCE_FAMILY"

/-- Fixed Cost Explorer configuration echoed into the report
(BENEFITS_CONSIDERED in the source). -/
def BENEFITS_CONSIDERED : Bool := true

/-- Object key prefix (PREFIX in the source; renamed here). -/
def PFX : String := "projects/ec2-rightsizing"

/-- Contribution of the extracted amount value to a savings total:
the line total += float(amt) if amt is not None else 0.0 wrapped in
try/except-pass.  A None amount adds 0.0; an unparseable amount raises
inside the try block, is swallowed, and leaves the total unchanged. -/
def floatContribution (amt : Jv) : Rat :=
  match amt with
  | .null => 0
  | v => (pyFloat v).getD 0

/-- Per-record body of the loop in _sum_ce_savings: the dict lookups
run outside the try block (so a non-dict value raises out of the
function); only the float conversion is protected. -/
def ceContrib (r : Jv) : Except PyErr Rat := do
  let m ← pyGetN r "ModifyRecommendationDetail"
  let t ← pyGetN r "TerminateRecommendationDetail"
  let detail := pyOr m (pyOr t (.obj []))
  let savings ← pyGetD detail "EstimatedMonthlySavings" (.obj [])
  let amt ← pyGetN savings "Amount"
  pure (floatContribution amt)

/-- Savings Aggregator for cost-explorer-shaped records
(_sum_ce_savings in the source). -/
def _sum_ce_savings (recs : List Jv) : Except PyErr Rat :=
  recs.foldlM (fun total r => (ceContrib r).map (fun c => total + c)) 0

/-- Per-record body of the loop in _sum_co_savings. -/
def coContrib (r : Jv) : Except PyErr Rat := do
  let so ← pyGetD r "savingsOpportunity" (.obj [])
  let savings ← pyGetD so "estimatedMonthlySavings" (.obj [])
  let val ← pyGetN savings "value"
  pure (floatContribution val)

/-- Savings Aggregator for compute-optimizer-shaped records
(_sum_co_savings in the source). -/
def _sum_co_savings (recs : List Jv) : Except PyErr Rat :=
  recs.foldlM (fun total r => (coContrib r).map (fun c => total + c)) 0

/-! ## SHA-256 (FIPS 180-4), used by _daily_seed

The source derives the daily seed as int(sha256(date)[:16], 16).  The
hash is implemented here over Nat with explicit reduction modulo 2^32,
words and the length field big-endian, exactly as in FIPS 180-4. -/

/-- Reduction of a Nat to a 32-bit word. -/
def w32 (x : Nat) : Nat := x % 4294967296

/-- Right rotation of a 32-bit word by n positions. -/
def rotr32 (n x : Nat) : Nat := w32 (Nat.lor (x >>> n) (x <<< (32 - n)))

/-- SHA-256 choice function Ch(x,y,z). -/
def ch32 (x y z : Nat) : Nat :=
  (Nat.land x y) ^^^ (Nat.land (x ^^^ 4294967295) z)

/-- SHA-256 majority function Maj(x,y,z). -/
def maj32 (x y z : Nat) : Nat :=
  ((Nat.land x y) ^^^ (Nat.land x z)) ^^^ (Nat.land y z)

/-- SHA-256 big sigma 0. -/
def bsig0 (x : Nat) : Nat :=
  ((rotr32 2 x) ^^^ (rotr32 13 x)) ^^^ (rotr32 22 x)

/-- SHA-256 big sigma 1. -/
def bsig1 (x : Nat) : Nat :=
  ((rotr32 6 x) ^^^ (rotr32 11 x)) ^^^ (rotr32 25 x)

/-- SHA-256 small sigma 0. -/
def ssig0 (x : Nat) : Nat :=
  ((rotr32 7 x) ^^^ (rotr32 18 x)) ^^^ (x >>> 3)

/-- SHA-256 small sigma 1. -/
def ssig1 (x : Nat) : Nat :=
  ((rotr32 17 x) ^^^ (rotr32 19 x)) ^^^ (x >>> 10)

/-- The 64 SHA-256 round constants of FIPS 180-4. -/
def sha256K : List Nat :=
  [1116352408, 1899447441, 3049323471, 3921009573,
   961987163, 1508970993, 2453635748, 2870763221,
   3624381080, 310598401, 607225278, 1426881987,
   1925078388, 2162078206, 2614888103, 3248222580,
   3835390401, 4022224774, 264347078, 604807628,
   770255983, 1249150122, 1555081692, 1996064986,
   2554220882, 2821834349, 2952996808, 3210313671,
   3336571891, 3584528711, 113926993, 338241895,
   666307205, 773529912, 1294757372, 1396182291,
   1695183700, 1986661051, 2177026350, 2456956037,
   2730485921, 2820302411, 3259730800, 3345764771,
   3516065817, 3600352804, 4094571909, 275423344,
   430227734, 506948616, 659060556, 883997877,
   958139571, 1322822218, 1537002063, 1747873779,
   1955562222, 2024104815, 2227730452, 2361852424,
   2428436474, 2756734187, 3204031479, 3329325298]

/-- The eight SHA-256 initial hash values of FIPS 180-4. -/
def sha256H0 : List Nat :=
  [1779033703, 3144134277, 1013904242, 2773480762,
   1359893119, 2600822924, 528734635, 1541459225]

/-- UTF-8 encoding of one code point as a byte list. -/
def utf8Char (n : Nat) : List Nat :=
  if n < 128 then [n]
  else if n < 2048 then [192 + n / 64, 128 + n % 64]
  else if n < 65536 then
    [224 + n / 4096, 128 + (n / 64) % 64, 128 + n % 64]
  else
    [240 + n / 262144, 128 + (n / 4096) % 64, 128 + (n / 64) % 64,
     128 + n % 64]

/-- UTF-8 encoding of a string, modelling str.encode in Python. -/
def utf8Bytes (s : String) : List Nat :=
  s.data.foldr (fun c acc => utf8Char c.toNat ++ acc) []

/-- Big-endian 8-byte serialization of a 64-bit length. -/
def be64 (n : Nat) : List Nat :=
  [(n >>> 56) % 256, (n >>> 48) % 256, (n >>> 40) % 256, (n >>> 32) % 256,
   (n >>> 24) % 256, (n >>> 16) % 256, (n >>> 8) % 256, n % 256]

/-- SHA-256 padding: append 0x80, zero bytes, then the 64-bit
big-endian bit length, to a multiple of 64 bytes. -/
def sha256Pad (msg : List Nat) : List Nat :=
  let L := msg.length
  let zeros := (120 - (L + 1) % 64) % 64
  msg ++ [128] ++ List.replicate zeros 0 ++ be64 (8 * L)

/-- Big-endian 32-bit words of a byte list. -/
def toWords : List Nat → List Nat
  | b0 :: b1 :: b2 :: b3 :: rest =>
    ((b0 <<< 24) + (b1 <<< 16) + (b2 <<< 8) + b3) :: toWords rest
  | _ => []

/-- Message-schedule extension: append fuel further words following the
FIPS 180-4 recurrence. -/
def sched (ws : List Nat) : Nat → List Nat
  | 0 => ws
  | fuel + 1 =>
    let i := ws.length
    let w := w32 (ssig1 (ws.getD (i - 2) 0) + ws.getD (i - 7) 0 +
      ssig0 (ws.getD (i - 15) 0) + ws.getD (i - 16) 0)
    sched (ws ++ [w]) fuel

/-- The 64 SHA-256 compression rounds over the working variables. -/
def rounds : List (Nat × Nat) →
    Nat × Nat × Nat × Nat × Nat × Nat × Nat × Nat →
    Nat × Nat × Nat × Nat × Nat × Nat × Nat × Nat
  | [], st => st
  | (kt, wt) :: rest, (a, b, c, d, e, f, g, h) =>
    let t1 := w32 (h + bsig1 e + ch32 e f g + kt + wt)
    let t2 := w32 (bsig0 a + maj32 a b c)
    rounds rest (w32 (t1 + t2), a, b, c, w32 (d + t1), e, f, g)

/-- One SHA-256 block compression step on the 8-word state. -/
def compressBlock (st : List Nat) (block : List Nat) : List Nat :=
  let ws := sched (toWords block) 48
  let (a, b, c, d, e, f, g, h) :=
    rounds (List.zip sha256K ws)
      (st.getD 0 0, st.getD 1 0, st.getD 2 0, st.getD 3 0,
       st.getD 4 0, st.getD 5 0, st.getD 6 0, st.getD 7 0)
  [w32 (st.getD 0 0 + a), w32 (st.getD 1 0 + b), w32 (st.getD 2 0 + c),
   w32 (st.getD 3 0 + d), w32 (st.getD 4 0 + e), w32 (st.getD 5 0 + f),
   w32 (st.getD 6 0 + g), w32 (st.getD 7 0 + h)]

/-- Iterated compression over n 64-byte blocks of bs. -/
def sha256Blocks (st : List Nat) (bs : List Nat) : Nat → List Nat
  | 0 => st
  | m + 1 => sha256Blocks (compressBlock st (bs.take 64)) (bs.drop 64) m

/-- SHA-256 digest of a byte list, as the 8 hash words. -/
def sha256Words (msg : List Nat) : List Nat :=
  let p := sha256Pad msg
  sha256Blocks sha256H0 p (p.length / 64)

/-- Daily Seed (_daily_seed in the source): int(h[:16], 16) of the
hex digest h is the value of the first 8 digest bytes read big-endian,
that is the first two hash words. -/
def _daily_seed (today : String) : Nat :=
  let ws := sha256Words (utf8Bytes today)
  ws.getD 0 0 * 4294967296 + ws.getD 1 0

/-! ## Random number generator model

The source uses the global generator of the Python random module
(Mersenne Twister).  The model below is an explicit deterministic state
machine with the same interface guarantees the proofs rely on: seeding
determines all subsequent draws, randint a b lands in [a, b],
choice picks a member of its list, and random() lands in [0, 1). -/

/-- State of the modelled random number generator. -/
structure RState : Type where
  val : Nat
deriving DecidableEq, Repr

/-- One raw 64-bit draw with state update. -/
def RState.next (g : RState) : Nat × RState :=
  let v := 6364136223846793005 * g.val % 18446744073709551616
  (v, ⟨v⟩)

/-- Model of random.seed(n): the resulting state is a function of n
alone, discarding the previous state. -/
def seedR (n : Nat) : RState := ⟨n % 18446744073709551616⟩

/-- Model of random.randint(a, b): an integer in [a, b] (both ends
included), as guaranteed by the Python documentation. -/
def randint (a b : Nat) (g : RState) : Nat × RState :=
  (a + g.next.1 % (b - a + 1), g.next.2)

/-- Model of random.random(): a number in [0, 1) with 53 bits of
resolution, as in CPython. -/
def randFloat (g : RState) : Rat × RState :=
  (((g.next.1 % 9007199254740992 : Nat) : Rat) / (9007199254740992 : Rat),
   g.next.2)

/-- Model of random.uniform(a, b) = a + (b - a) * random(). -/
def uniformR (a b : Rat) (g : RState) : Rat × RState :=
  (a + (b - a) * (randFloat g).1, (randFloat g).2)

/-- Model of random.choice(l) on a non-empty list: some member of l.
The default is only reachable for an empty list, where Python raises. -/
def pyChoice {α : Type} (l : List α) (dflt : α) (g : RState) : α × RState :=
  (l.getD (g.next.1 % l.length) dflt, g.next.2)

/-! ## Synthetic generator (CE-shaped objects) -/

/-- The fixed catalog of instance families and their ordered size lists
(FAMILIES in the source). -/
def FAMILIES : List (String × List String) :=
  [("t3", ["micro", "small", "medium", "large", "xlarge", "2xlarge"]),
   ("t4g", ["small", "medium", "large", "xlarge", "2xlarge"]),
   ("m6i", ["large", "xlarge", "2xlarge"]),
   ("m7i", ["large", "xlarge", "2xlarge"]),
   ("c7g", ["large", "xlarge", "2xlarge"]),
   ("r6i", ["large", "xlarge", "2xlarge"])]

/-- The ordered size ladder (the local variable order in
_smaller_type). -/
def sizeOrder : List String :=
  ["micro", "small", "medium", "large", "xlarge", "2xlarge",
   "4xlarge", "8xlarge"]

/-- Split of a character list at every occurrence of sep, modelling
Python str.split. -/
def splitOnChar (sep : Char) : List Char → List (List Char)
  | [] => [[]]
  | c :: cs =>
    if c = sep then [] :: splitOnChar sep cs
    else
      match splitOnChar sep cs with
      | [] => [[c]]
      | h :: t => (c :: h) :: t

/-- Split of a string at every dot, modelling of_type.split(".") in
the source. -/
def pySplitDot (s : String) : List String :=
  (splitOnChar '.' s.data).map (fun l => String.mk l)

/-- Model of s.startswith(pre). -/
def pyStartswith (s pre : String) : Bool :=
  pre.data.isPrefixOf s.data

/-- Model of l.index(x) for Python lists: index of the first occurrence,
none when absent (where Python raises ValueError). -/
def pyIndex (l : List String) (x : String) : Option Nat :=
  match l with
  | [] => none
  | y :: ys => if y = x then some 0 else (pyIndex ys x).map (fun n => n + 1)

/-- The size-step computation of _smaller_type: the try/except block
computing new_size.  idx = max(order.index(size), 1), new_size =
order[idx - 1]; a ValueError from index (size not on the ladder)
defaults new_size to "small".  The getD default is unreachable because
idx - 1 is always a valid index. -/
def _smaller_size (size : String) : String :=
  match pyIndex sizeOrder size with
  | some i => sizeOrder.getD (max i 1 - 1) "small"
  | none => "small"

/-- Conditional graviton swap of _smaller_type: a family starting with
m6i may become m7g, then a family starting with t3 may become t4g,
each by a coin flip drawn only when the prefix test passes. -/
def famSwap (fam : String) (g : RState) : String × RState :=
  let p1 : String × RState :=
    if pyStartswith fam "m6i" then
      (if (randFloat g).1 < 1 / 2 then "m7g" else fam, (randFloat g).2)
    else (fam, g)
  if pyStartswith p1.1 "t3" then
    (if (randFloat p1.2).1 < 1 / 2 then "t4g" else p1.1, (randFloat p1.2).2)
  else p1

/-- Synthetic size-step function (_smaller_type in the source): splits
the type at the dot, steps the size down the ladder, and may swap the
family for a graviton sibling with two conditional random() draws.
none models the unpacking ValueError Python raises when the split does
not yield exactly two parts (unreachable for generated inputs, see the
claim about the catalog). -/
def _smaller_type (of_type : String) (g : RState) : Option (String × RState) :=
  match pySplitDot of_type with
  | [fam, size] =>
    some ((famSwap fam g).1 ++ "." ++ _smaller_size size, (famSwap fam g).2)
  | _ => none

/-- Random current instance type (_pick_instance_type in the source):
a family drawn from FAMILIES, then a size drawn from its size list. -/
def _pick_instance_type (g : RState) : String × RState :=
  let c1 := pyChoice FAMILIES ("", []) g
  let c2 := pyChoice c1.1.2 "" c1.2
  (c1.1.1 ++ "." ++ c2.1, c2.2)

/-- Seventeen random hexadecimal characters, one draw each, modelling
random.choices("0123456789abcdef", k=17). -/
def randChars : Nat → RState → List Char × RState
  | 0, g => ([], g)
  | n + 1, g =>
    let c := "0123456789abcdef".data.getD (g.next.1 % 16) '0'
    let rest := randChars n g.next.2
    (c :: rest.1, rest.2)

/-- Random instance identifier (_rand_instance_id in the source). -/
def _rand_instance_id (g : RState) : String × RState :=
  ("i-" ++ String.mk (randChars 17 g).1, (randChars 17 g).2)

/-- Model of round(x, 2): rounding to the nearest hundredth.  (Python
rounds ties on floats to even; ties are measure-zero artifacts of the
binary representation and no claim depends on them.) -/
def round2 (x : Rat) : Rat := ((round (x * 100) : Int) : Rat) / 100

/-- Decimal string c/100 with exactly two digits after the dot. -/
def centsStr (c : Nat) : String :=
  toString (c / 100) ++ "." ++
    (if c % 100 < 10 then "0" ++ toString (c % 100) else toString (c % 100))

/-- Model of the format f-string f"{x:.2f}" for the non-negative
amounts of this program. -/
def fmt2 (x : Rat) : String := centsStr (round (x * 100)).toNat

/-- Model of str(x) for a non-negative float holding a value with at
most two decimals, as produced by round(u, 2): Python prints the
shortest representation, dropping trailing zeros but keeping one
decimal digit. -/
def pyFloatStr (x : Rat) : String :=
  let c := (round (x * 100)).toNat
  if c % 100 == 0 then toString (c / 100) ++ ".0"
  else if c % 10 == 0 then
    toString (c / 100) ++ "." ++ toString (c % 100 / 10)
  else centsStr c

/-- The Modify-shaped record literal of the generator loop. -/
def modifyRec (rid : String) (nm : Nat)
    (current_type target_type : String) (monthly_savings : Rat) : Jv :=
  .obj [("AccountId", .str "913979368763"),
    ("CurrentInstance", .obj [
      ("ResourceId", .str rid),
      ("InstanceName", .str ("app-" ++ toString nm)),
      ("ResourceDetails", .obj [("EC2ResourceDetails",
        .obj [("InstanceType", .str current_type)])])]),
    ("RightsizingType", .str "Modify"),
    ("ModifyRecommendationDetail", .obj [
      ("TargetInstances", .arr [.obj [
        ("EstimatedMonthlySavings", .obj [
          ("Amount", .str (fmt2 monthly_savings)),
          ("Unit", .str "USD")]),
        ("ResourceDetails", .obj [("EC2ResourceDetails",
          .obj [("InstanceType", .str target_type)])]),
        ("ExpectedCost", .obj [
          ("Amount", .str "—"), ("Unit", .str "USD")])]]),
      ("EstimatedMonthlySavings", .obj [
        ("Amount", .str (fmt2 monthly_savings)),
        ("Unit", .str "USD")])])]

/-- The Terminate-shaped record literal of the generator loop. -/
def terminateRec (rid : String) (nm : Nat)
    (current_type : String) (monthly_savings : Rat) : Jv :=
  .obj [("AccountId", .str "913979368763"),
    ("CurrentInstance", .obj [
      ("ResourceId", .str rid),
      ("InstanceName", .str ("batch-" ++ toString nm)),
      ("ResourceDetails", .obj [("EC2ResourceDetails",
        .obj [("InstanceType", .str current_type)])])]),
    ("RightsizingType", .str "Terminate"),
    ("TerminateRecommendationDetail", .obj [
      ("EstimatedMonthlySavings", .obj [
        ("Amount", .str (fmt2 monthly_savings)),
        ("Unit", .str "USD")])])]

/-- One iteration of the for-loop of _gen_synthetic_recs: the drawn
record, its monthly savings amount, and the generator state after the
iteration. -/
def genStep (g : RState) : Jv × Rat × RState :=
  let pk := _pick_instance_type g
  let current_type := pk.1
  let sm := (_smaller_type current_type pk.2).getD ("", pk.2)
  let target_type := sm.1
  let pr := randFloat sm.2
  let rightsizing_type := if pr.1 > 1 / 4 then "Modify" else "Terminate"
  let un := uniformR 3 120 pr.2
  let monthly_savings := round2 un.1
  let rid := (_rand_instance_id un.2).1
  let nm := (randint 10 99 (_rand_instance_id un.2).2).1
  let r : Jv :=
    if rightsizing_type = "Modify" then
      modifyRec rid nm current_type target_type monthly_savings
    else
      terminateRec rid nm current_type monthly_savings
  (r, monthly_savings, (randint 10 99 (_rand_instance_id un.2).2).2)

/-- Body of the for-loop of _gen_synthetic_recs, run n times: builds
the record list in order and accumulates the savings total. -/
def genLoop : Nat → RState → List Jv → Rat → List Jv × Rat × RState
  | 0, g, recs, total => (recs, total, g)
  | n + 1, g, recs, total =>
    genLoop n (genStep g).2.2 (recs ++ [(genStep g).1])
      (total + (genStep g).2.1)

/-- Seeding and record loop of the Synthetic Generator: random.seed
from the daily seed, n = randint(2, 5), then n loop iterations. -/
def genRecs (today : String) : List Jv × Rat × RState :=
  genLoop (randint 2 5 (seedR (_daily_seed today))).1
    (randint 2 5 (seedR (_daily_seed today))).2 [] 0

/-- Synthetic Generator (_gen_synthetic_recs in the source).  The
entry state of the global generator is a parameter, and the first
action is random.seed(_daily_seed()), so the output is a function of
the date alone.  today is the UTC date string the source obtains from
utcnow().strftime. -/
def _gen_synthetic_recs (today : String) (g0 : RState) : Jv × List Jv :=
  let _ := g0
  let lp := genRecs today
  let praw := (uniformR 5 55 lp.2.2).1
  let summary : Jv := .obj [
    ("TotalEstimatedMonthlySavingsAmount", .str (fmt2 lp.2.1)),
    ("TotalEstimatedMonthlySavingsCurrency", .str "USD"),
    ("EstimatedSavingsPercentage", .str (pyFloatStr (round2 praw)))]
  (summary, lp.1)

/-! ## Real data fetchers and liveness probe

Each fetcher is parameterized by the sequence of responses the AWS
client returns, one entry per call in order; an entry .error e models
the call raising.  An exhausted response list while the loop still
wants a page is modelled as the call raising. -/

/-- Model of recs.extend(resp.get(k, [])): missing key contributes
nothing, a non-list value raises TypeError. -/
def getListD (j : Jv) (k : String) : Except PyErr (List Jv) := do
  let v ← pyGetD j k (.arr [])
  match v with
  | .arr xs => pure xs
  | _ => .error .other

/-- Pagination loop of _fetch_ce_rightsizing: accumulate pages,
overwrite the summary whenever a page carries one, follow
NextPageToken while truthy. -/
def ceLoop : List (Except PyErr Jv) → Jv → List Jv →
    Except PyErr (Jv × List Jv)
  | [], _, _ => .error .other
  | r :: rest, summary, recs => do
    let resp ← r
    let page ← getListD resp "RightsizingRecommendations"
    let recs1 := recs ++ page
    let summary1 ← pyGetD resp "Summary" summary
    let tok ← pyGetN resp "NextPageToken"
    if truthy tok then ceLoop rest summary1 recs1
    else pure (summary1, recs1)

/-- Cost-Explorer Fetcher (_fetch_ce_rightsizing in the source). -/
def _fetch_ce_rightsizing (api : List (Except PyErr Jv)) :
    Except PyErr (Jv × List Jv) :=
  ceLoop api (.obj []) []

/-- Pagination loop of _fetch_co_rightsizing. -/
def coLoop : List (Except PyErr Jv) → List Jv → Except PyErr (List Jv)
  | [], _ => .error .other
  | r :: rest, recs => do
    let resp ← r
    let page ← getListD resp "instanceRecommendations"
    let recs1 := recs ++ page
    let tok ← pyGetN resp "nextToken"
    if truthy tok then coLoop rest recs1
    else pure recs1

/-- Compute-Optimizer Fetcher (_fetch_co_rightsizing in the source).
After pagination it queries the enrollment status; only a ClientError
from that call is caught and degraded to the "Unknown" sentinel, and
any other exception propagates out of the fetch. -/
def _fetch_co_rightsizing (api : List (Except PyErr Jv))
    (enroll : Except PyErr Jv) : Except PyErr (Jv × List Jv) := do
  let recs ← coLoop api []
  let status ←
    match enroll with
    | .ok resp => pyGetD resp "status" (.str "Unknown")
    | .error .client => pure (Jv.str "Unknown")
    | .error e => .error e
  pure (.obj [("compute_optimizer_enrollment_status", status)], recs)

/-- Inner loop of _any_running_instances over the reservations. -/
def anyRunningLoop : List Jv → Except PyErr Bool
  | [] => .ok false
  | res :: rest => do
    let v ← pyGetN res "Instances"
    if truthy v then pure true else anyRunningLoop rest

/-- Liveness Probe (_any_running_instances in the source), given the
result of the describe_instances call.  Only a ClientError from the
call is caught (degrading to false); any other exception, including
one raised while reading the response, propagates. -/
def _any_running_instances (resp : Except PyErr Jv) : Except PyErr Bool :=
  match resp with
  | .error .client => .ok false
  | .error e => .error e
  | .ok r => do
    let rs ← getListD r "Reservations"
    anyRunningLoop rs

/-! ## Fallback orchestrator (lambda_handler) -/

/-- External world of one invocation: the responses of the AWS calls
the handler (transitively) performs, the UTC date and timestamp, and
the entry state of the global random generator. -/
structure Env : Type where
  ceApi : List (Except PyErr Jv)
  coApi : List (Except PyErr Jv)
  enroll : Except PyErr Jv
  ec2Resp : Except PyErr Jv
  today : String
  now : String
  g0 : RState

/-- Step 1 of the orchestrator: the body of the outer try block.
A fetch failure, an aggregation failure, or an aggregate below
MIN_SAVINGS (the explicit RuntimeError) all surface as errors. -/
def tryCE (e : Env) : Except PyErr (Jv × List Jv) := do
  let sr ← _fetch_ce_rightsizing e.ceApi
  let t ← _sum_ce_savings sr.2
  if t < MIN_SAVINGS then .error .other else pure sr

/-- Step 2 of the orchestrator: the body of the inner try block. -/
def tryCO (e : Env) : Except PyErr (Jv × List Jv) := do
  let sr ← _fetch_co_rightsizing e.coApi e.enroll
  let t ← _sum_co_savings sr.2
  if t < MIN_SAVINGS then .error .other else pure sr

/-- The source-selection state machine of lambda_handler: Cost
Explorer, then Compute Optimizer, then the synthetic branch, which
consults the liveness probe but generates synthetic data and tags the
source "synthetic" in both of its branches. -/
def chooseSource (e : Env) : Except PyErr (String × Jv × List Jv) :=
  match tryCE e with
  | .ok sr => .ok ("cost-explorer", sr.1, sr.2)
  | .error _ =>
    match tryCO e with
    | .ok sr => .ok ("compute-optimizer", sr.1, sr.2)
    | .error _ => do
      let running ← _any_running_instances e.ec2Resp
      if !running then
        let sr := _gen_synthetic_recs e.today e.g0
        pure ("synthetic", sr.1, sr.2)
      else
        let sr := _gen_synthetic_recs e.today e.g0
        pure ("synthetic", sr.1, sr.2)

/-- The report envelope assembled by lambda_handler (payload in the
source). -/
structure Payload : Type where
  generated_at : String
  source : String
  recommendation_target : Option String
  benefits_considered : Option Bool
  summary : Jv
  count : Nat
  recommendations : List Jv

/-- The dictionary returned by lambda_handler to its invoker. -/
structure RetVal : Type where
  status : String
  source : String
  dated_key : String
  latest_key : String
  items : Nat

/-- Observable outcome of one invocation: the assembled payload, the
two s3 put calls in order (key and content), the CloudFront
invalidation paths, and the returned dictionary. -/
structure HOut : Type where
  payload : Payload
  puts : List (String × Payload)
  invalidations : List String
  ret : RetVal

/-- Fallback Orchestrator and report assembly (lambda_handler in the
source). -/
def lambda_handler (e : Env) : Except PyErr HOut := do
  let (source, summary, recs) ← chooseSource e
  let payload : Payload := {
    generated_at := e.now
    source := source
    recommendation_target :=
      if source == "cost-explorer" then some RECOMMENDATION_TARGET else none
    benefits_considered :=
      if source == "cost-explorer" then some BENEFITS_CONSIDERED else none
    summary := summary
    count := recs.length
    recommendations := recs }
  let dated_key := PFX ++ "/" ++ e.today ++ ".json"
  let latest_key := PFX ++ "/latest.json"
  pure {
    payload := payload
    puts := [(dated_key, payload), (latest_key, payload)]
    invalidations := ["/" ++ latest_key]
    ret := { status := "ok", source := source, dated_key := dated_key,
             latest_key := latest_key, items := recs.length } }

/-- Boolean test that a string contains no dot. -/
def noDot (s : String) : Bool := s.data.all (fun c => c != '.')

/-- Size component of a type string: the part after the dot. -/
def typeSize (t : String) : String := (pySplitDot t).getD 1 ""

/-- Predicate over a savings dictionary: the amount under the given key
is absent, None, or fails float conversion. -/
def missingAmount (key : String) (sav : List (String × Jv)) : Prop :=
  List.lookup key sav = none ∨ List.lookup key sav = some Jv.null ∨
  ∀ v, List.lookup key sav = some v → pyFloat v = none

/-- Extraction of the detail-level savings Amount string of a record in
the cost-explorer shape (through whichever of the two detail blocks is
present). -/
def detailOf (kvs : List (String × Jv)) : Option Jv :=
  match List.lookup "ModifyRecommendationDetail" kvs with
  | some d => some d
  | none => List.lookup "TerminateRecommendationDetail" kvs

/-- The Amount string stored under EstimatedMonthlySavings of the
detail block of a record. -/
def recAmountStr (r : Jv) : Option String :=
  match r with
  | .obj kvs =>
    match detailOf kvs with
    | some (.obj dk) =>
      match List.lookup "EstimatedMonthlySavings" dk with
      | some (.obj sk) =>
        match List.lookup "Amount" sk with
        | some (.str s) => some s
        | _ => none
      | _ => none
    | _ => none
  | _ => none

/-- Range property of one generated record: its savings amount string
prints a whole number of cents between 300 and 12000, that is a
two-decimal value in [3.00, 120.00]. -/
def genP (r : Jv) : Prop :=
  ∃ c : Nat, 300 ≤ c ∧ c ≤ 12000 ∧ recAmountStr r = some (centsStr c)

/-- Extraction of the successful value of an invocation outcome. -/
def okValue (x : Except PyErr HOut) (d : HOut) : HOut :=
  match x with
  | .ok v => v
  | .error _ => d

/-- Placeholder outcome used as the (unreached) extraction default. -/
def dummyOut : HOut :=
  ⟨⟨"", "", none, none, .null, 0, []⟩, [], [], ⟨"", "", "", "", 0⟩⟩

/-- Concrete environment for the C7 witness: a successful one-page
cost-explorer fetch with two records. -/
def envC7 : Env :=
  { ceApi := [.ok (Jv.obj [("RightsizingRecommendations", Jv.arr
      [Jv.obj [("ModifyRecommendationDetail", Jv.obj
        [("EstimatedMonthlySavings", Jv.obj [("Amount", Jv.str "41.50")])])],
       Jv.obj [("TerminateRecommendationDetail", Jv.obj
        [("EstimatedMonthlySavings", Jv.obj [("Amount", Jv.str "7.25")])])]]),
      ("Summary", Jv.obj [("TotalSavings", Jv.str "48.75")])])]
    coApi := []
    enroll := .error .client
    ec2Resp := .error .client
    today := "2026-10-12"
    now := "2026-10-12T00:00:00+00:00"
    g0 := ⟨0⟩ }

/-- The outcome of the C7 witness invocation. -/
def outC7 : HOut := okValue (lambda_handler envC7) dummyOut

/-! ## Proofs

Core marks the rational arithmetic operations irreducible, which blocks
definitional evaluation of the embedded functions at concrete inputs;
the proofs below evaluate them, so restore the default reducibility for
this file. -/

attribute [local semireducible] Rat.add Rat.mul Rat.sub Rat.inv

/-! ## Aggregator lemmas -/

/-- Monotonicity of the aggregation fold: when every contribution of
the processed records is non-negative, the fold cannot decrease below
its accumulator. -/
theorem foldl_contrib_ge (f : Jv → Except PyErr Rat) :
    ∀ (recs : List Jv) (acc t : Rat),
    List.foldlM (fun total r => (f r).map (fun c => total + c)) acc recs =
      .ok t →
    (∀ r ∈ recs, ∀ c, f r = .ok c → 0 ≤ c) → acc ≤ t := by
  intro recs
  induction recs with
  | nil =>
    intro acc t h _
    simp only [List.foldlM] at h
    cases h
    exact le_refl _
  | cons r rs ih =>
    intro acc t h hc
    simp only [List.foldlM] at h
    cases hcr : f r with
    | error e =>
      rw [hcr] at h
      simp [Except.map, Except.bind, Bind.bind] at h
    | ok c =>
      rw [hcr] at h
      simp only [Except.map, Except.bind, Bind.bind] at h
      have h0 : 0 ≤ c := hc r (List.mem_cons_self r rs) c hcr
      have := ih (acc + c) t h (fun x hx => hc x (List.mem_cons_of_mem r hx))
      linarith

/-- Zero contribution for None and unparseable amounts. -/
theorem floatContribution_zero (v : Jv) (h : v = Jv.null ∨ pyFloat v = none) :
    floatContribution v = 0 := by
  cases v with
  | null => rfl
  | b x =>
    rcases h with h | h
    · exact absurd h (by simp)
    · simp [pyFloat] at h
  | num q =>
    rcases h with h | h
    · exact absurd h (by simp)
    · simp [pyFloat] at h
  | str s =>
    rcases h with h | h
    · exact absurd h (by simp)
    · simp [floatContribution, h]
  | arr xs => simp [floatContribution, pyFloat]
  | obj kvs => simp [floatContribution, pyFloat]

/-- The Amount value a savings dictionary yields through dict.get is
None or unparseable whenever missingAmount holds. -/
theorem missingAmount_contribution (key : String) (sav : List (String × Jv))
    (h : missingAmount key sav) :
    floatContribution ((List.lookup key sav).getD Jv.null) = 0 := by
  rcases h with h | h | h
  · rw [h]; rfl
  · rw [h]; rfl
  · cases hl : List.lookup key sav with
    | none => rfl
    | some v => exact floatContribution_zero v (Or.inr (h v hl))

/-- C2, counterexample: a single cost-explorer-shaped record carrying
the parseable negative amount "-5" makes the aggregator return -5,
which is negative; so the Savings Aggregator does not return a
non-negative value for every collection of records. -/
theorem claim_C2_counterexample :
    _sum_ce_savings [Jv.obj [("ModifyRecommendationDetail", Jv.obj
      [("EstimatedMonthlySavings", Jv.obj [("Amount", Jv.str "-5")])])]] =
      .ok (-5) ∧ ((-5 : Rat) < 0) := by
  constructor
  · rfl
  · decide

/-- C2, amended: both Savings Aggregator variants return a total that
is non-negative whenever every record contribution is non-negative
(a record with a parseable negative amount makes the total negative),
and a record in the standard dictionary shape whose savings amount is
missing, None, or non-numeric contributes exactly zero without raising
an exception. -/
theorem claim_C2 :
    (∀ (recs : List Jv) (t : Rat), _sum_ce_savings recs = .ok t →
      (∀ r ∈ recs, ∀ c, ceContrib r = .ok c → 0 ≤ c) → 0 ≤ t) ∧
    (∀ (recs : List Jv) (t : Rat), _sum_co_savings recs = .ok t →
      (∀ r ∈ recs, ∀ c, coContrib r = .ok c → 0 ≤ c) → 0 ≤ t) ∧
    (∀ (sav : List (String × Jv)), missingAmount "Amount" sav →
      ceContrib (Jv.obj [("ModifyRecommendationDetail",
        Jv.obj [("EstimatedMonthlySavings", Jv.obj sav)])]) = .ok 0 ∧
      ceContrib (Jv.obj [("TerminateRecommendationDetail",
        Jv.obj [("EstimatedMonthlySavings", Jv.obj sav)])]) = .ok 0) ∧
    (∀ (sav : List (String × Jv)), missingAmount "value" sav →
      coContrib (Jv.obj [("savingsOpportunity", Jv.obj
        [("estimatedMonthlySavings", Jv.obj sav)])]) = .ok 0) := by
  refine ⟨?_, ?_, ?_, ?_⟩
  · intro recs t h hc
    exact foldl_contrib_ge ceContrib recs 0 t h hc
  · intro recs t h hc
    exact foldl_contrib_ge coContrib recs 0 t h hc
  · intro sav h
    constructor
    · show Except.ok (floatContribution ((List.lookup "Amount" sav).getD Jv.null)) = .ok 0
      rw [missingAmount_contribution "Amount" sav h]
    · show Except.ok (floatContribution ((List.lookup "Amount" sav).getD Jv.null)) = .ok 0
      rw [missingAmount_contribution "Amount" sav h]
  · intro sav h
    show Except.ok (floatContribution ((List.lookup "value" sav).getD Jv.null)) = .ok 0
    rw [missingAmount_contribution "value" sav h]

/-- C2, witness: the amended theorem applied to a concrete record list
with amount "7.50" and to a concrete non-numeric savings dictionary. -/
theorem claim_C2_witness :
    ((0 : Rat) ≤ 15 / 2) ∧
    coContrib (Jv.obj [("savingsOpportunity", Jv.obj
      [("estimatedMonthlySavings", Jv.obj [("value", Jv.str "oops")])])]) =
      .ok 0 := by
  constructor
  · refine claim_C2.1 [Jv.obj [("ModifyRecommendationDetail", Jv.obj
      [("EstimatedMonthlySavings", Jv.obj [("Amount", Jv.str "7.50")])])]]
      (15 / 2) rfl ?_
    intro r hr c hc
    simp only [List.mem_singleton] at hr
    subst hr
    have : ceContrib (Jv.obj [("ModifyRecommendationDetail", Jv.obj
      [("EstimatedMonthlySavings", Jv.obj [("Amount", Jv.str "7.50")])])]) =
        .ok (15 / 2) := rfl
    rw [this] at hc
    cases hc
    decide
  · exact claim_C2.2.2.2 [("value", Jv.str "oops")]
      (Or.inr (Or.inr (fun v hv => by cases hv; rfl)))

/-! ## Orchestrator lemmas -/

/-- Bind on a successful Except computation. -/
theorem exBind_ok {α β : Type} (a : α) (k : α → Except PyErr β) :
    (Except.ok a >>= k) = k a := rfl

/-- Bind on a failed Except computation. -/
theorem exBind_err {α β : Type} (err : PyErr) (k : α → Except PyErr β) :
    ((Except.error err : Except PyErr α) >>= k) = Except.error err := rfl

/-- Success of the cost-explorer attempt whenever the fetch succeeds
and the aggregate is not strictly below the threshold. -/
theorem tryCE_ok (e : Env) (sr : Jv × List Jv) (t : Rat)
    (h1 : _fetch_ce_rightsizing e.ceApi = .ok sr)
    (h2 : _sum_ce_savings sr.2 = .ok t) (h3 : ¬ t < MIN_SAVINGS) :
    tryCE e = .ok sr := by
  unfold tryCE
  rw [h1, exBind_ok, h2, exBind_ok, if_neg h3]
  rfl

/-- C5: when the cost-explorer fetch succeeds and its aggregate equals
the minimum-savings threshold exactly, the boundary is treated as
sufficient: the handler terminates with source cost-explorer carrying
that summary and those recommendations. -/
theorem claim_C5 (e : Env) (sr : Jv × List Jv)
    (h1 : _fetch_ce_rightsizing e.ceApi = .ok sr)
    (h2 : _sum_ce_savings sr.2 = .ok MIN_SAVINGS) :
    ∃ out, lambda_handler e = .ok out ∧
      out.payload.source = "cost-explorer" ∧
      out.payload.summary = sr.1 ∧
      out.payload.recommendations = sr.2 := by
  have hce : tryCE e = .ok sr := tryCE_ok e sr MIN_SAVINGS h1 h2 (lt_irrefl _)
  have hcs : chooseSource e = .ok ("cost-explorer", sr.1, sr.2) := by
    unfold chooseSource
    rw [hce]
  unfold lambda_handler
  rw [hcs, exBind_ok]
  exact ⟨_, rfl, rfl, rfl, rfl⟩

/-- C5, witness: a one-page cost-explorer response with a single record
whose amount is exactly 0.01, the threshold. -/
theorem claim_C5_witness :
    ∃ out, lambda_handler
      { ceApi := [.ok (Jv.obj [("RightsizingRecommendations", Jv.arr
          [Jv.obj [("ModifyRecommendationDetail", Jv.obj
            [("EstimatedMonthlySavings", Jv.obj
              [("Amount", Jv.str "0.01")])])]])])]
        coApi := []
        enroll := .error .client
        ec2Resp := .error .client
        today := "2026-10-12"
        now := "2026-10-12T00:00:00+00:00"
        g0 := ⟨0⟩ } = .ok out ∧
      out.payload.source = "cost-explorer" ∧
      out.payload.summary = Jv.obj [] ∧
      out.payload.recommendations = [Jv.obj [("ModifyRecommendationDetail",
        Jv.obj [("EstimatedMonthlySavings", Jv.obj
          [("Amount", Jv.str "0.01")])])]] := by
  exact claim_C5 _ (Jv.obj [], [Jv.obj [("ModifyRecommendationDetail",
    Jv.obj [("EstimatedMonthlySavings", Jv.obj
      [("Amount", Jv.str "0.01")])])]]) rfl rfl

/-- C7: every completed invocation assembles an envelope whose count
field equals the length of its recommendation collection, and writes
the one payload value to both the dated key and the latest key. -/
theorem claim_C7 (e : Env) (out : HOut) (h : lambda_handler e = .ok out) :
    out.payload.count = out.payload.recommendations.length ∧
    out.puts = [(PFX ++ "/" ++ e.today ++ ".json", out.payload),
      (PFX ++ "/latest.json", out.payload)] := by
  cases hcs : chooseSource e with
  | error err =>
    unfold lambda_handler at h
    rw [hcs, exBind_err] at h
    cases h
  | ok v =>
    obtain ⟨src, sm, recs⟩ := v
    unfold lambda_handler at h
    rw [hcs, exBind_ok] at h
    cases h
    exact ⟨rfl, rfl⟩

/-- C7, witness: the envelope invariant evaluated on the concrete
environment envC7. -/
theorem claim_C7_witness :
    lambda_handler envC7 = .ok outC7 ∧
    outC7.payload.count = outC7.payload.recommendations.length ∧
    outC7.puts = [(PFX ++ "/" ++ envC7.today ++ ".json", outC7.payload),
      (PFX ++ "/latest.json", outC7.payload)] :=
  ⟨rfl, (claim_C7 envC7 outC7 rfl).1, (claim_C7 envC7 outC7 rfl).2⟩

/-- C9: in the orchestrator the liveness probe result is purely
informational.  For any two environments that differ only in the
describe_instances response, as long as the probe returns a boolean in
both (whatever its value), the entire invocation outcome is identical:
both branches of the synthetic step run the same generator call and
tag the source "synthetic". -/
theorem claim_C9 (ce co : List (Except PyErr Jv)) (en r1 r2 : Except PyErr Jv)
    (td nw : String) (g : RState) (b1 b2 : Bool)
    (h1 : _any_running_instances r1 = .ok b1)
    (h2 : _any_running_instances r2 = .ok b2) :
    lambda_handler ⟨ce, co, en, r1, td, nw, g⟩ =
      lambda_handler ⟨ce, co, en, r2, td, nw, g⟩ := by
  have hcs : chooseSource ⟨ce, co, en, r1, td, nw, g⟩ =
      chooseSource ⟨ce, co, en, r2, td, nw, g⟩ := by
    unfold chooseSource
    have et : tryCE ⟨ce, co, en, r2, td, nw, g⟩ =
        tryCE ⟨ce, co, en, r1, td, nw, g⟩ := rfl
    rw [et]
    cases tryCE ⟨ce, co, en, r1, td, nw, g⟩ with
    | ok sr => rfl
    | error e1 =>
      have eo : tryCO ⟨ce, co, en, r2, td, nw, g⟩ =
          tryCO ⟨ce, co, en, r1, td, nw, g⟩ := rfl
      rw [eo]
      cases tryCO ⟨ce, co, en, r1, td, nw, g⟩ with
      | ok sr => rfl
      | error e2 =>
        show (_any_running_instances r1 >>= fun running => _) =
          (_any_running_instances r2 >>= fun running => _)
        rw [h1, h2, exBind_ok, exBind_ok]
        cases b1 <;> cases b2 <;> rfl
  unfold lambda_handler
  rw [hcs]

/-- C9, witness: the theorem instantiated with an environment whose
real attempts fail, one probe response with no reservations (probe
false) and one with a running instance (probe true). -/
theorem claim_C9_witness :
    lambda_handler ⟨[.ok (Jv.obj [])], [.ok (Jv.obj [])], .error .client,
      .ok (Jv.obj []), "2026-10-12", "2026-10-12T00:00:00+00:00", ⟨0⟩⟩ =
    lambda_handler ⟨[.ok (Jv.obj [])], [.ok (Jv.obj [])], .error .client,
      .ok (Jv.obj [("Reservations", Jv.arr [Jv.obj
        [("Instances", Jv.arr [Jv.null])]])]),
      "2026-10-12", "2026-10-12T00:00:00+00:00", ⟨0⟩⟩ :=
  claim_C9 [.ok (Jv.obj [])] [.ok (Jv.obj [])] (.error .client)
    (.ok (Jv.obj []))
    (.ok (Jv.obj [("Reservations", Jv.arr [Jv.obj
      [("Instances", Jv.arr [Jv.null])]])]))
    "2026-10-12" "2026-10-12T00:00:00+00:00" ⟨0⟩ false true rfl rfl

/-- Failure of the cost-explorer attempt from a fetch error or a
below-threshold aggregate. -/
theorem tryCE_err (e : Env)
    (h : (∃ err, _fetch_ce_rightsizing e.ceApi = .error err) ∨
      (∃ sr t, _fetch_ce_rightsizing e.ceApi = .ok sr ∧
        _sum_ce_savings sr.2 = .ok t ∧ t < MIN_SAVINGS)) :
    ∃ err, tryCE e = .error err := by
  unfold tryCE
  rcases h with ⟨err, hf⟩ | ⟨sr, t, hf, hs, hlt⟩
  · exact ⟨err, by rw [hf, exBind_err]⟩
  · exact ⟨.other, by rw [hf, exBind_ok, hs, exBind_ok, if_pos hlt]⟩

/-- Failure of the compute-optimizer attempt from a fetch error or a
below-threshold aggregate. -/
theorem tryCO_err (e : Env)
    (h : (∃ err, _fetch_co_rightsizing e.coApi e.enroll = .error err) ∨
      (∃ sr t, _fetch_co_rightsizing e.coApi e.enroll = .ok sr ∧
        _sum_co_savings sr.2 = .ok t ∧ t < MIN_SAVINGS)) :
    ∃ err, tryCO e = .error err := by
  unfold tryCO
  rcases h with ⟨err, hf⟩ | ⟨sr, t, hf, hs, hlt⟩
  · exact ⟨err, by rw [hf, exBind_err]⟩
  · exact ⟨.other, by rw [hf, exBind_ok, hs, exBind_ok, if_pos hlt]⟩

/-- C4: when both real attempts fail (each by raising or by an
aggregate below the threshold) and the probe returns a boolean, the
invocation completes with source "synthetic" and null target and
benefits fields; moreover, in every completed invocation those two
fields are populated only when the source is cost-explorer. -/
theorem claim_C4 (e : Env) (b : Bool)
    (hce : (∃ err, _fetch_ce_rightsizing e.ceApi = .error err) ∨
      (∃ sr t, _fetch_ce_rightsizing e.ceApi = .ok sr ∧
        _sum_ce_savings sr.2 = .ok t ∧ t < MIN_SAVINGS))
    (hco : (∃ err, _fetch_co_rightsizing e.coApi e.enroll = .error err) ∨
      (∃ sr t, _fetch_co_rightsizing e.coApi e.enroll = .ok sr ∧
        _sum_co_savings sr.2 = .ok t ∧ t < MIN_SAVINGS))
    (hpr : _any_running_instances e.ec2Resp = .ok b) :
    (∃ out, lambda_handler e = .ok out ∧
      out.payload.source = "synthetic" ∧
      out.payload.recommendation_target = none ∧
      out.payload.benefits_considered = none) ∧
    (∀ (e2 : Env) (out2 : HOut), lambda_handler e2 = .ok out2 →
      (out2.payload.recommendation_target ≠ none ∨
        out2.payload.benefits_considered ≠ none) →
      out2.payload.source = "cost-explorer") := by
  constructor
  · obtain ⟨err1, h1⟩ := tryCE_err e hce
    obtain ⟨err2, h2⟩ := tryCO_err e hco
    have hcs : chooseSource e = .ok ("synthetic",
        (_gen_synthetic_recs e.today e.g0).1,
        (_gen_synthetic_recs e.today e.g0).2) := by
      unfold chooseSource
      rw [h1, h2]
      show (_any_running_instances e.ec2Resp >>= fun running => _) = _
      rw [hpr, exBind_ok]
      cases b <;> rfl
    unfold lambda_handler
    rw [hcs, exBind_ok]
    exact ⟨_, rfl, rfl, rfl, rfl⟩
  · intro e2 out2 h hne
    cases hcs2 : chooseSource e2 with
    | error err =>
      unfold lambda_handler at h
      rw [hcs2, exBind_err] at h
      cases h
    | ok v =>
      obtain ⟨src, sm, recs⟩ := v
      unfold lambda_handler at h
      rw [hcs2, exBind_ok] at h
      cases h
      by_cases hsrc : (src == "cost-explorer") = true
      · exact eq_of_beq hsrc
      · exfalso
        rcases hne with hne | hne
        · exact hne (by simp only [if_neg hsrc])
        · exact hne (by simp only [if_neg hsrc])

/-- C4, witness: a concrete environment where both real sources return
empty collections (aggregate 0, below the threshold 0.01) and the
probe sees no reservations. -/
theorem claim_C4_witness :
    ∃ out, lambda_handler ⟨[.ok (Jv.obj [])], [.ok (Jv.obj [])],
      .error .client, .ok (Jv.obj []), "2026-10-12",
      "2026-10-12T00:00:00+00:00", ⟨0⟩⟩ = .ok out ∧
      out.payload.source = "synthetic" ∧
      out.payload.recommendation_target = none ∧
      out.payload.benefits_considered = none :=
  (claim_C4 ⟨[.ok (Jv.obj [])], [.ok (Jv.obj [])], .error .client,
      .ok (Jv.obj []), "2026-10-12", "2026-10-12T00:00:00+00:00", ⟨0⟩⟩ false
    (Or.inr ⟨(Jv.obj [], []), 0, rfl, rfl, by decide⟩)
    (Or.inr ⟨(Jv.obj [("compute_optimizer_enrollment_status",
        Jv.str "Unknown")], []), 0, rfl, rfl, by decide⟩)
    rfl).1

/-- C8, counterexample: against a fixed one-page pagination response
that the fetch handles fine (first conjunct: with a healthy enrollment
call the fetch succeeds), a failure of the enrollment-status call that
is not a ClientError (for instance a network error outside ClientError)
propagates out of the Compute-Optimizer fetch (second conjunct), so the
fetch does not succeed for every failure of the status call: the
source's try block around the status call catches ClientError only,
and the pagination, unchanged between the two conjuncts, is not the
cause. -/
theorem claim_C8_counterexample :
    _fetch_co_rightsizing [.ok (Jv.obj [])]
      (.ok (Jv.obj [("status", Jv.str "Active")])) =
      .ok (.obj [("compute_optimizer_enrollment_status",
        .str "Active")], []) ∧
    _fetch_co_rightsizing [.ok (Jv.obj [])] (.error .other) =
      .error .other :=
  ⟨rfl, rfl⟩

/-- C8, amended: when pagination succeeds, a ClientError failure of the
enrollment-status call does not fail the fetch and degrades the status
field to the sentinel "Unknown", while every failure of any other
exception class propagates and fails the fetch. -/
theorem claim_C8 (api : List (Except PyErr Jv)) (recs : List Jv)
    (h : coLoop api [] = .ok recs) :
    _fetch_co_rightsizing api (.error .client) =
      .ok (.obj [("compute_optimizer_enrollment_status",
        .str "Unknown")], recs) ∧
    ∀ (e : PyErr), e ≠ .client →
      _fetch_co_rightsizing api (.error e) = .error e := by
  constructor
  · unfold _fetch_co_rightsizing
    rw [h, exBind_ok]
    rfl
  · intro e he
    cases e with
    | client => exact absurd rfl he
    | other =>
      unfold _fetch_co_rightsizing
      rw [h, exBind_ok]
      rfl

/-- C8, witness: the amended theorem on a concrete one-page response
carrying one recommendation, with both hypotheses discharged: the
pagination result and the non-ClientError disequality. -/
theorem claim_C8_witness :
    _fetch_co_rightsizing [.ok (Jv.obj [("instanceRecommendations",
        Jv.arr [Jv.obj [("instanceArn", Jv.str "arn:x")]])])]
      (.error .client) =
      .ok (.obj [("compute_optimizer_enrollment_status",
        .str "Unknown")], [Jv.obj [("instanceArn", Jv.str "arn:x")]]) ∧
    _fetch_co_rightsizing [.ok (Jv.obj [("instanceRecommendations",
        Jv.arr [Jv.obj [("instanceArn", Jv.str "arn:x")]])])]
      (.error .other) = .error .other :=
  ⟨(claim_C8 [.ok (Jv.obj [("instanceRecommendations",
      Jv.arr [Jv.obj [("instanceArn", Jv.str "arn:x")]])])]
      [Jv.obj [("instanceArn", Jv.str "arn:x")]] rfl).1,
   (claim_C8 [.ok (Jv.obj [("instanceRecommendations",
      Jv.arr [Jv.obj [("instanceArn", Jv.str "arn:x")]])])]
      [Jv.obj [("instanceArn", Jv.str "arn:x")]] rfl).2
     .other (by decide)⟩

/-- C3: the synthetic generator reseeds the global generator from the
date-derived daily seed before drawing anything, so its output is a
function of the UTC date alone: two runs on the same date agree
whatever the prior generator state; and the daily seeds of two
concrete distinct dates differ (per the spec, seed collision freedom
is not required to be proven in general, being a property of
truncated SHA-256). -/
theorem claim_C3 :
    (∀ (today : String) (g1 g2 : RState),
      _gen_synthetic_recs today g1 = _gen_synthetic_recs today g2) ∧
    _daily_seed "2026-10-11" ≠ _daily_seed "2026-10-12" := by
  constructor
  · intro today g1 g2
    rfl
  · decide

/-! ## String-splitting lemmas for the size-step function -/

/-- Split of a separator-free character list. -/
theorem splitOnChar_no_sep (sep : Char) :
    ∀ (cs : List Char), (∀ c ∈ cs, c ≠ sep) → splitOnChar sep cs = [cs] := by
  intro cs
  induction cs with
  | nil => intro _; rfl
  | cons c cs ih =>
    intro h
    have hc : ¬ c = sep := h c (List.mem_cons_self c cs)
    have hcs : splitOnChar sep cs = [cs] :=
      ih (fun x hx => h x (List.mem_cons_of_mem c hx))
    simp [splitOnChar, hc, hcs]

/-- Split around one separator occurrence following a separator-free
prefix. -/
theorem splitOnChar_append (sep : Char) :
    ∀ (a b : List Char), (∀ c ∈ a, c ≠ sep) →
    splitOnChar sep (a ++ sep :: b) = a :: splitOnChar sep b := by
  intro a
  induction a with
  | nil =>
    intro b _
    simp [splitOnChar]
  | cons c cs ih =>
    intro b h
    have hc : ¬ c = sep := h c (List.mem_cons_self c cs)
    have hrec : splitOnChar sep (cs ++ sep :: b) = cs :: splitOnChar sep b :=
      ih b (fun x hx => h x (List.mem_cons_of_mem c hx))
    simp [splitOnChar, hc, hrec]

/-- Characters of a dot-free string avoid the dot. -/
theorem noDot_chars (s : String) (h : noDot s = true) :
    ∀ c ∈ s.data, c ≠ '.' := by
  simp only [noDot, List.all_eq_true, bne_iff_ne, ne_eq] at h
  exact h

/-- Splitting fam.size at the dot recovers the two components when
neither contains a dot. -/
theorem pySplitDot_append (fam size : String)
    (h1 : noDot fam = true) (h2 : noDot size = true) :
    pySplitDot (fam ++ "." ++ size) = [fam, size] := by
  unfold pySplitDot
  have hd : (fam ++ "." ++ size).data = fam.data ++ '.' :: size.data := by
    rw [String.data_append, String.data_append]
    simp
  rw [hd, splitOnChar_append '.' fam.data size.data (noDot_chars fam h1),
    splitOnChar_no_sep '.' size.data (noDot_chars size h2)]
  rfl

/-- Membership of the choice draw for a non-empty list. -/
theorem pyChoice_mem {α : Type} (l : List α) (d : α) (g : RState)
    (h : l ≠ []) : (pyChoice l d g).1 ∈ l := by
  have hl : 0 < l.length := List.length_pos.mpr h
  have hlt : g.next.1 % l.length < l.length := Nat.mod_lt _ hl
  show l.getD (g.next.1 % l.length) d ∈ l
  rw [List.getD_eq_getElem l d hlt]
  exact List.getElem_mem hlt

/-- The random current type always decomposes into a catalog
family-sizes entry and one of its sizes. -/
theorem pick_parts (g : RState) :
    ∃ p size g2, p ∈ FAMILIES ∧ size ∈ p.2 ∧
      _pick_instance_type g = (p.1 ++ "." ++ size, g2) := by
  have hmem : (pyChoice FAMILIES ("", []) g).1 ∈ FAMILIES :=
    pyChoice_mem FAMILIES ("", []) g (by simp [FAMILIES])
  have hne : (pyChoice FAMILIES ("", []) g).1.2 ≠ [] := by
    have hall : ∀ p ∈ FAMILIES, p.2 ≠ [] := by decide
    exact hall _ hmem
  exact ⟨(pyChoice FAMILIES ("", []) g).1,
    (pyChoice (pyChoice FAMILIES ("", []) g).1.2 ""
      (pyChoice FAMILIES ("", []) g).2).1,
    (pyChoice (pyChoice FAMILIES ("", []) g).1.2 ""
      (pyChoice FAMILIES ("", []) g).2).2,
    hmem, pyChoice_mem _ "" _ hne, rfl⟩

/-- The swapped family is the original or one of the two concrete
graviton siblings. -/
theorem famSwap_cases (fam : String) (g : RState) :
    (famSwap fam g).1 = fam ∨ (famSwap fam g).1 = "m7g" ∨
      (famSwap fam g).1 = "t4g" := by
  unfold famSwap
  dsimp only
  by_cases h1 : pyStartswith fam "m6i" = true
  · rw [if_pos h1]
    by_cases hq : (randFloat g).1 < 1 / 2
    · rw [if_pos hq]
      right; left; rfl
    · rw [if_neg hq]
      by_cases h3 : pyStartswith fam "t3" = true
      · rw [if_pos h3]
        by_cases hq2 : (randFloat (randFloat g).2).1 < 1 / 2
        · rw [if_pos hq2]
          right; right; rfl
        · rw [if_neg hq2]
          left; rfl
      · rw [if_neg h3]
        left; rfl
  · rw [if_neg h1]
    by_cases h3 : pyStartswith fam "t3" = true
    · rw [if_pos h3]
      by_cases hq : (randFloat g).1 < 1 / 2
      · rw [if_pos hq]
        right; right; rfl
      · rw [if_neg hq]
        left; rfl
    · rw [if_neg h3]
      left; rfl

/-- The swapped family contains no dot when the original does not. -/
theorem famSwap_noDot (fam : String) (g : RState) (h : noDot fam = true) :
    noDot (famSwap fam g).1 = true := by
  rcases famSwap_cases fam g with hc | hc | hc <;> rw [hc]
  · exact h
  · decide
  · decide

/-- Normal form of the size-step function on a two-component type. -/
theorem smaller_type_eq (fam size : String) (g : RState)
    (h1 : noDot fam = true) (h2 : noDot size = true) :
    _smaller_type (fam ++ "." ++ size) g =
      some ((famSwap fam g).1 ++ "." ++ _smaller_size size,
        (famSwap fam g).2) := by
  unfold _smaller_type
  rw [pySplitDot_append fam size h1 h2]

/-- Size component of an assembled two-component type. -/
theorem typeSize_append (fam size : String)
    (h1 : noDot fam = true) (h2 : noDot size = true) :
    typeSize (fam ++ "." ++ size) = size := by
  unfold typeSize
  rw [pySplitDot_append fam size h1 h2]
  rfl

/-- Catalog facts: every family name and every size of the fixed
catalog is dot-free, and every size sits on the ladder. -/
theorem catalog_facts :
    ∀ p ∈ FAMILIES, noDot p.1 = true ∧
      ∀ s ∈ p.2, noDot s = true ∧ s ∈ sizeOrder := by decide

/-- The stepped size always remains on the ladder. -/
theorem smaller_size_mem : ∀ s ∈ sizeOrder, _smaller_size s ∈ sizeOrder := by
  decide

/-- An unrecognized size defaults the step to "small". -/
theorem smaller_size_default (s : String)
    (h : pyIndex sizeOrder s = none) : _smaller_size s = "small" := by
  unfold _smaller_size
  rw [h]

/-- Ladder sizes are dot-free. -/
theorem sizeOrder_noDot : ∀ s ∈ sizeOrder, noDot s = true := by decide

/-- For a current size on the ladder other than micro and small, the
stepped size sits at a ladder position at least 1, the position of
small: the step goes one position down and stays at or above small. -/
theorem smaller_size_ge_small : ∀ s ∈ sizeOrder, s ≠ "micro" →
    s ≠ "small" → 1 ≤ (pyIndex sizeOrder (_smaller_size s)).getD 0 := by
  decide

/-- C10: every current type drawn from the fixed catalog splits at the
dot into exactly its family and its size, that size is a member of the
ordered size ladder, so the ladder lookup succeeds (the ValueError
handler defaulting the target size to "small" is unreachable for
generator-produced inputs) and the size-step call takes the recognized
path, never the fallback. -/
theorem claim_C10 (g : RState) :
    ∃ p size g2, p ∈ FAMILIES ∧ size ∈ p.2 ∧
      _pick_instance_type g = (p.1 ++ "." ++ size, g2) ∧
      pySplitDot (p.1 ++ "." ++ size) = [p.1, size] ∧
      size ∈ sizeOrder ∧
      pyIndex sizeOrder size ≠ none ∧
      ∀ gA, _smaller_type (p.1 ++ "." ++ size) gA =
        some ((famSwap p.1 gA).1 ++ "." ++ _smaller_size size,
          (famSwap p.1 gA).2) := by
  obtain ⟨p, size, g2, hp, hs, heq⟩ := pick_parts g
  have hcat := catalog_facts p hp
  have hfd : noDot p.1 = true := hcat.1
  have hsd : noDot size = true := (hcat.2 size hs).1
  have hso : size ∈ sizeOrder := (hcat.2 size hs).2
  refine ⟨p, size, g2, hp, hs, heq,
    pySplitDot_append p.1 size hfd hsd, hso, ?_, ?_⟩
  · have hidx : ∀ s ∈ sizeOrder, pyIndex sizeOrder s ≠ none := by decide
    exact hidx size hso
  · intro gA
    exact smaller_type_eq p.1 size gA hfd hsd

/-- C1, counterexample: from generator state 17 the picked current
type is t4g.small, and the size step maps it to a target whose size is
micro, which sits at ladder position 0, strictly below small at
position 1 — the step does go below small. -/
theorem claim_C1_counterexample :
    (_pick_instance_type ⟨17⟩).1 = "t4g.small" ∧
    ((_smaller_type "t4g.small" (_pick_instance_type ⟨17⟩).2).map
      (fun pr => typeSize pr.1)) = some "micro" ∧
    pyIndex sizeOrder "micro" = some 0 ∧
    pyIndex sizeOrder "small" = some 1 :=
  ⟨rfl, rfl, rfl, rfl⟩

/-- C1, amended: for every generated current type the size step
succeeds and lands on the ladder, and the target size is never below
small provided the current size is neither micro nor small (the code
computes position max(i, 1) - 1, so current sizes micro and small both
map to micro, below small); an unrecognized current size defaults the
target size to small. -/
theorem claim_C1 :
    (∀ g gA, ∃ t2 g2,
      _smaller_type (_pick_instance_type g).1 gA = some (t2, g2) ∧
      typeSize t2 ∈ sizeOrder ∧
      (typeSize (_pick_instance_type g).1 ≠ "micro" →
       typeSize (_pick_instance_type g).1 ≠ "small" →
       1 ≤ (pyIndex sizeOrder (typeSize t2)).getD 0)) ∧
    (∀ fam size g, noDot fam = true → noDot size = true →
      pyIndex sizeOrder size = none →
      ∃ t2 g2, _smaller_type (fam ++ "." ++ size) g = some (t2, g2) ∧
        typeSize t2 = "small") := by
  constructor
  · intro g gA
    obtain ⟨p, size, g2, hp, hs, heq⟩ := pick_parts g
    have hcat := catalog_facts p hp
    have hfd : noDot p.1 = true := hcat.1
    have hsd : noDot size = true := (hcat.2 size hs).1
    have hso : size ∈ sizeOrder := (hcat.2 size hs).2
    have h1 : (_pick_instance_type g).1 = p.1 ++ "." ++ size := by
      rw [heq]
    have hts : typeSize (_pick_instance_type g).1 = size := by
      rw [h1, typeSize_append p.1 size hfd hsd]
    have hsm : _smaller_size size ∈ sizeOrder := smaller_size_mem size hso
    have hsmnd : noDot (_smaller_size size) = true :=
      sizeOrder_noDot (_smaller_size size) hsm
    refine ⟨(famSwap p.1 gA).1 ++ "." ++ _smaller_size size,
      (famSwap p.1 gA).2, ?_, ?_, ?_⟩
    · rw [h1, smaller_type_eq p.1 size gA hfd hsd]
    · rw [typeSize_append (famSwap p.1 gA).1 (_smaller_size size)
        (famSwap_noDot p.1 gA hfd) hsmnd]
      exact hsm
    · intro hm hsml
      rw [hts] at hm hsml
      rw [typeSize_append (famSwap p.1 gA).1 (_smaller_size size)
        (famSwap_noDot p.1 gA hfd) hsmnd]
      exact smaller_size_ge_small size hso hm hsml
  · intro fam size g hfd hsd hidx
    have hdef : _smaller_size size = "small" := smaller_size_default size hidx
    refine ⟨(famSwap fam g).1 ++ "." ++ _smaller_size size,
      (famSwap fam g).2, smaller_type_eq fam size g hfd hsd, ?_⟩
    rw [typeSize_append (famSwap fam g).1 (_smaller_size size)
      (famSwap_noDot fam g hfd) (by rw [hdef]; decide), hdef]

/-- C1, witness: the amended theorem applied to generator state 1,
where the picked type is m7i.xlarge (current size neither micro nor
small), and to the unrecognized type z9.huge. -/
theorem claim_C1_witness :
    (∃ t2 g2, _smaller_type (_pick_instance_type ⟨1⟩).1 ⟨0⟩ =
        some (t2, g2) ∧
      typeSize t2 ∈ sizeOrder ∧
      1 ≤ (pyIndex sizeOrder (typeSize t2)).getD 0) ∧
    (∃ t2 g2, _smaller_type ("z9" ++ "." ++ "huge") ⟨0⟩ = some (t2, g2) ∧
      typeSize t2 = "small") := by
  constructor
  · obtain ⟨t2, g2, heq, hmem, himp⟩ := claim_C1.1 ⟨1⟩ ⟨0⟩
    exact ⟨t2, g2, heq, hmem, himp (by decide) (by decide)⟩
  · exact claim_C1.2 "z9" "huge" ⟨0⟩ (by decide) (by decide) rfl

/-! ## Generator range lemmas -/

/-- Bounds of the randint draw. -/
theorem randint_bounds (a b : Nat) (g : RState) (h : a ≤ b) :
    a ≤ (randint a b g).1 ∧ (randint a b g).1 ≤ b := by
  unfold randint
  constructor
  · exact Nat.le_add_right a _
  · have hm : g.next.1 % (b - a + 1) < b - a + 1 :=
      Nat.mod_lt _ (Nat.succ_pos _)
    omega

/-- Bounds of the random() draw. -/
theorem randFloat_bounds (g : RState) :
    0 ≤ (randFloat g).1 ∧ (randFloat g).1 < 1 := by
  unfold randFloat
  constructor
  · positivity
  · have h : (g.next.1 % 9007199254740992 : Nat) < 9007199254740992 :=
      Nat.mod_lt _ (by norm_num)
    rw [div_lt_one (by norm_num)]
    exact_mod_cast h

/-- Bounds of the uniform draw. -/
theorem uniformR_bounds (a b : Rat) (g : RState) (h : a < b) :
    a ≤ (uniformR a b g).1 ∧ (uniformR a b g).1 < b := by
  obtain ⟨h0, h1⟩ := randFloat_bounds g
  unfold uniformR
  dsimp only
  constructor
  · nlinarith
  · nlinarith

/-- Cents bounds after rounding a uniform draw from [3, 120). -/
theorem round_cents_bounds (u : Rat) (h3 : 3 ≤ u) (h120 : u < 120) :
    300 ≤ round (u * 100) ∧ round (u * 100) ≤ 12000 := by
  rw [round_eq]
  constructor
  · apply Int.le_floor.mpr
    push_cast
    linarith
  · have hlt : ⌊u * 100 + 1 / 2⌋ < 12001 := by
      apply Int.floor_lt.mpr
      push_cast
      linarith
  
    omega

/-- The two-decimal format of a rounded value prints its cents. -/
theorem fmt2_round2 (u : Rat) :
    fmt2 (round2 u) = centsStr (round (u * 100)).toNat := by
  unfold fmt2 round2
  congr 2
  rw [div_mul_cancel₀]
  · rw [round_intCast]
  · norm_num

/-- Range property of the two record shapes carrying a rounded uniform
amount. -/
theorem rec_amount_ok (rid : String) (nm : Nat) (ct tt : String)
    (u : Rat) (h3 : 3 ≤ u) (h120 : u < 120) (r : Jv)
    (hr : r = modifyRec rid nm ct tt (round2 u) ∨
      r = terminateRec rid nm ct (round2 u)) : genP r := by
  obtain ⟨hlo, hhi⟩ := round_cents_bounds u h3 h120
  refine ⟨(round (u * 100)).toNat, by omega, by omega, ?_⟩
  rcases hr with hr | hr <;> rw [hr]
  · show some (fmt2 (round2 u)) = some (centsStr (round (u * 100)).toNat)
    rw [fmt2_round2]
  · show some (fmt2 (round2 u)) = some (centsStr (round (u * 100)).toNat)
    rw [fmt2_round2]

/-- Every record produced by one loop iteration satisfies the range
property. -/
theorem genStep_ok (g : RState) : genP (genStep g).1 := by
  have hu := uniformR_bounds 3 120
    (randFloat ((_smaller_type (_pick_instance_type g).1
      (_pick_instance_type g).2).getD ("", (_pick_instance_type g).2)).2).2
    (by norm_num)
  unfold genStep
  dsimp only
  split
  · exact rec_amount_ok _ _ _ _ _ hu.1 hu.2 _ (Or.inl rfl)
  · exact rec_amount_ok _ _ _ "" _ hu.1 hu.2 _ (Or.inr rfl)

/-- Length of the loop output. -/
theorem genLoop_length : ∀ (n : Nat) (g : RState) (recs : List Jv)
    (total : Rat), (genLoop n g recs total).1.length = recs.length + n := by
  intro n
  induction n with
  | zero => intro g recs total; rfl
  | succ m ih =>
    intro g recs total
    show (genLoop m (genStep g).2.2 (recs ++ [(genStep g).1])
      (total + (genStep g).2.1)).1.length = recs.length + (m + 1)
    rw [ih]
    simp
    omega

/-- Every record in the loop output satisfies the range property when
the accumulator does. -/
theorem genLoop_mem : ∀ (n : Nat) (g : RState) (recs : List Jv)
    (total : Rat), (∀ r ∈ recs, genP r) →
    ∀ r ∈ (genLoop n g recs total).1, genP r := by
  intro n
  induction n with
  | zero => intro g recs total h; exact h
  | succ m ih =>
    intro g recs total h
    show ∀ r ∈ (genLoop m (genStep g).2.2 (recs ++ [(genStep g).1])
      (total + (genStep g).2.1)).1, genP r
    refine ih _ _ _ ?_
    intro r hr
    rcases List.mem_append.mp hr with hr | hr
    · exact h r hr
    · rw [List.mem_singleton.mp hr]
      exact genStep_ok g

/-- The recommendation collection of the generator is the output of
the seeded loop. -/
theorem gen_recs_eq (today : String) (g : RState) :
    (_gen_synthetic_recs today g).2 = (genRecs today).1 := rfl

/-- C6: every run of the synthetic generator yields between 2 and 5
records (inclusive), and every generated record stores a savings
amount string of exactly two decimals whose value lies in
[3.00, 120.00] (between 300 and 12000 cents). -/
theorem claim_C6 (today : String) (g : RState) :
    2 ≤ (_gen_synthetic_recs today g).2.length ∧
    (_gen_synthetic_recs today g).2.length ≤ 5 ∧
    ∀ r ∈ (_gen_synthetic_recs today g).2, genP r := by
  have hn := randint_bounds 2 5 (seedR (_daily_seed today)) (by norm_num)
  have hlen : (genRecs today).1.length =
      (randint 2 5 (seedR (_daily_seed today))).1 := by
    unfold genRecs
    rw [genLoop_length]
    simp
  refine ⟨?_, ?_, ?_⟩
  · rw [gen_recs_eq, hlen]; exact hn.1
  · rw [gen_recs_eq, hlen]; exact hn.2
  · intro r hr
    rw [gen_recs_eq] at hr
    unfold genRecs at hr
    exact genLoop_mem _ _ [] 0 (fun x hx => absurd hx (List.not_mem_nil x))
      r hr

/-- C6, witness: the generator range theorem evaluated on the date
2026-10-12 and entry state 0, with the first record exhibited. -/
theorem claim_C6_witness :
    2 ≤ (_gen_synthetic_recs "2026-10-12" ⟨0⟩).2.length ∧
    (_gen_synthetic_recs "2026-10-12" ⟨0⟩).2.length ≤ 5 ∧
    genP ((_gen_synthetic_recs "2026-10-12" ⟨0⟩).2.getD 0 Jv.null) := by
  have h := claim_C6 "2026-10-12" ⟨0⟩
  have hlen : 0 < (_gen_synthetic_recs "2026-10-12" ⟨0⟩).2.length := by
    have := h.1
    omega
  refine ⟨h.1, h.2.1, ?_⟩
  refine h.2.2 _ ?_
  rw [List.getD_eq_getElem _ _ hlen]
  exact List.getElem_mem hlen
